import Mathlib

/-!
Shallow embedding of the DCF valuation engine and sensitivity grid of
`dcf_app_v2.py`.

Real numbers of the source are modelled as rationals (`ℚ`), with every
Python division routed through `pydiv`, which fails with a
`zeroDivisionError` when the denominator is exactly zero, mirroring the
exception plain Python float division raises.  Exceptions that escape a
Python function are modelled by the `EngineOutcome.raised` constructor;
dictionaries returned by the function are modelled by
`EngineOutcome.returned`.

Data retrieval (yfinance) is an external collaborator: the figures it
would deliver are passed in as a `StockData` record whose `Option` fields
model values that are absent or NaN (the `pd.isna` / `is None` checks of
the source).  The ticker string and the runtime type checks of the source
(lines 56-59, which only reject non-string / non-numeric arguments) are
outside this typed model.
-/

/-- Financial figures the external data collaborator delivers for one
ticker.  `Option.none` in a field models a missing / NaN upstream value. -/
structure StockData where
  infoValid : Bool
  cashflowAvailable : Bool
  balanceSheetAvailable : Bool
  freeCashFlow : Option ℚ
  marketCap : Option ℚ
  currentPrice : Option ℚ
  totalLiabilities : Option ℚ
  cashAndEquivalents : Option ℚ
  sharesOutstanding : Option ℚ
deriving DecidableEq

/-- Python exceptions the embedded code can raise. -/
inductive PyException where
  | typeError (msg : String)
  | valueError (msg : String)
  | zeroDivisionError
  | indexError
deriving DecidableEq

/-- `str(e)` for the exceptions above. -/
def pyExcMsg : PyException → String
  | .typeError m => m
  | .valueError m => m
  | .zeroDivisionError => "division by zero"
  | .indexError => "list index out of range"

/-- The fields of the success dictionary built at lines 139-156 of the
source (everything except the literal `None` stored under
`Error Message`). -/
structure DCFSuccess where
  intrinsicValuePerShare : ℚ
  currentSharePrice : ℚ
  upsideDownside : ℚ
  freeCashFlow : ℚ
  marketCap : ℚ
  netDebt : ℚ
  projectedFCFs : List ℚ
  presentValues : List ℚ
  terminalValue : ℚ
  impliedGrowthRate : ℚ
  presentValueTerminalValue : ℚ
  enterpriseValue : ℚ
  equityValue : ℚ
  sharesOutstanding : ℚ
  priceToFCF : ℚ
deriving DecidableEq

/-- A dictionary returned by `discounted_cash_flow`: either one of the
single-key error dictionaries or the full success dictionary. -/
inductive ResultDict where
  | errorDict (msg : String)
  | success (r : DCFSuccess)
deriving DecidableEq

/-- Outcome of calling the engine: an exception escaping the call, or a
returned dictionary. -/
inductive EngineOutcome where
  | raised (e : PyException)
  | returned (d : ResultDict)
deriving DecidableEq

/-- Python division: raises `ZeroDivisionError` on a zero denominator. -/
def pydiv (a b : ℚ) : Except PyException ℚ :=
  if b = 0 then .error .zeroDivisionError else .ok (a / b)

/-- `l[-1]` on a Python list: last element, `IndexError` when empty. -/
def pylast (l : List ℚ) : Except PyException ℚ :=
  match l.getLast? with
  | Option.none => .error .indexError
  | some v => .ok v

/-- Growth-rate selection of lines 120-123: the near-term rate through
year 5, the long-term rate afterwards. -/
def growthFor (g1 g2 : ℚ) (year : ℕ) : ℚ :=
  if year ≤ 5 then g1 else g2

/-- `range(1, number_of_years + 1)` of line 119 (empty when the horizon
is not positive). -/
def projectionYears (number_of_years : ℤ) : List ℕ :=
  List.range' 1 number_of_years.toNat

/-- The projection loop of lines 119-127, restricted to the present-value
divisions (the only fallible part of the loop body); the projected FCF of
a year is recomputed from the base figure inside. -/
def pvList (free_cash_flow g1 g2 discount_rate : ℚ) : List ℕ → Except PyException (List ℚ)
  | [] => .ok []
  | year :: rest =>
    match pydiv (free_cash_flow * (1 + growthFor g1 g2 year) ^ year)
        ((1 + discount_rate) ^ year) with
    | .error e => .error e
    | .ok present_value =>
      match pvList free_cash_flow g1 g2 discount_rate rest with
      | .error e => .error e
      | .ok present_values => .ok (present_value :: present_values)

/-- Lines 115-156 of the source: the calculation section of the `try`
block, entered once every data figure is available.  Every division and
the `[-1]` list access are fallible; a failure is the exception that the
`except` clause at line 158 will catch. -/
def computePart (free_cash_flow market_cap current_price net_debt shares_outstanding : ℚ)
    (number_of_years : ℤ)
    (discount_rate growth_rate_1_5 growth_rate_6_20 terminal_growth_rate : ℚ) :
    Except PyException ResultDict :=
  let years := projectionYears number_of_years
  let projected_fcfs := years.map
    (fun year => free_cash_flow * (1 + growthFor growth_rate_1_5 growth_rate_6_20 year) ^ year)
  match pvList free_cash_flow growth_rate_1_5 growth_rate_6_20 discount_rate years with
  | .error e => .error e
  | .ok present_values =>
    match pylast projected_fcfs with
    | .error e => .error e
    | .ok last_fcf =>
      match pydiv (last_fcf * (1 + terminal_growth_rate))
          (discount_rate - terminal_growth_rate) with
      | .error e => .error e
      | .ok terminal_value =>
        match pydiv terminal_value ((1 + discount_rate) ^ number_of_years) with
        | .error e => .error e
        | .ok present_value_terminal_value =>
          let sum_of_pvs := present_values.sum + present_value_terminal_value
          let enterprise_value := sum_of_pvs
          let equity_value := enterprise_value - net_debt
          match pydiv equity_value shares_outstanding with
          | .error e => .error e
          | .ok intrinsic_value_per_share =>
            match pydiv (intrinsic_value_per_share - current_price) current_price with
            | .error e => .error e
            | .ok upside_downside =>
              match pydiv free_cash_flow terminal_value with
              | .error e => .error e
              | .ok fcf_over_tv =>
                match pydiv (discount_rate - fcf_over_tv) (1 + fcf_over_tv) with
                | .error e => .error e
                | .ok implied_growth_rate =>
                  match pydiv market_cap free_cash_flow with
                  | .error e => .error e
                  | .ok price_to_fcf =>
                    .ok (.success {
                      intrinsicValuePerShare := intrinsic_value_per_share
                      currentSharePrice := current_price
                      upsideDownside := upside_downside
                      freeCashFlow := free_cash_flow
                      marketCap := market_cap
                      netDebt := net_debt
                      projectedFCFs := projected_fcfs
                      presentValues := present_values
                      terminalValue := terminal_value
                      impliedGrowthRate := implied_growth_rate
                      presentValueTerminalValue := present_value_terminal_value
                      enterpriseValue := enterprise_value
                      equityValue := equity_value
                      sharesOutstanding := shares_outstanding
                      priceToFCF := price_to_fcf })

/-- The whole `try` block (lines 74-156): the data-availability checks in
source order, each early `return` of an error dictionary modelled as
`.ok (.errorDict msg)`, then the calculation section.  A `.error` value is
an exception flying towards the handler at line 158. -/
def dcfTry (data : StockData) (number_of_years : ℤ)
    (discount_rate growth_rate_1_5 growth_rate_6_20 terminal_growth_rate : ℚ) :
    Except PyException ResultDict :=
  if data.infoValid = false then .ok (.errorDict "Invalid ticker symbol")
  else if data.cashflowAvailable = false then
    .ok (.errorDict "Cash flow statement data unavailable.")
  else if data.balanceSheetAvailable = false then
    .ok (.errorDict "Balance sheet data unavailable.")
  else
    match data.freeCashFlow with
    | Option.none => .ok (.errorDict "Free Cash Flow data unavailable.")
    | some free_cash_flow =>
      match data.marketCap with
      | Option.none => .ok (.errorDict "Market capitalization data unavailable.")
      | some market_cap =>
        match data.currentPrice with
        | Option.none => .ok (.errorDict "Current price data unavailable.")
        | some current_price =>
          match data.totalLiabilities, data.cashAndEquivalents with
          | Option.none, _ => .ok (.errorDict "Net Debt data unavailable")
          | some _, Option.none => .ok (.errorDict "Net Debt data unavailable")
          | some total_liabilities, some cash_and_equivalents =>
            match data.sharesOutstanding with
            | Option.none => .ok (.errorDict "Shares outstanding unavailable.")
            | some shares_outstanding =>
              computePart free_cash_flow market_cap current_price
                (total_liabilities - cash_and_equivalents) shares_outstanding
                number_of_years discount_rate growth_rate_1_5 growth_rate_6_20
                terminal_growth_rate

/-- The `try`/`except` pair: any exception raised inside the block is
converted at line 158-159 into the generic error dictionary. -/
def dcfBody (data : StockData) (number_of_years : ℤ)
    (discount_rate growth_rate_1_5 growth_rate_6_20 terminal_growth_rate : ℚ) :
    ResultDict :=
  match dcfTry data number_of_years discount_rate growth_rate_1_5 growth_rate_6_20
      terminal_growth_rate with
  | .ok d => d
  | .error e => .errorDict ("An unexpected error occurred: " ++ pyExcMsg e)

/-- `discounted_cash_flow` (lines 51-159).  The five value-validation
checks of lines 62-71 raise `ValueError` before the `try` block is
entered; once they pass, the body always returns a dictionary. -/
def discounted_cash_flow (data : StockData) (number_of_years : ℤ)
    (discount_rate growth_rate_1_5 growth_rate_6_20 terminal_growth_rate : ℚ) :
    EngineOutcome :=
  if ¬(0 ≤ discount_rate ∧ discount_rate ≤ 1) then
    .raised (.valueError "Discount rate must be between 0 and 1.")
  else if ¬(-1 ≤ growth_rate_1_5 ∧ growth_rate_1_5 ≤ 2) then
    .raised (.valueError "Growth rate (1-5) is outside a reasonable range (-1 to 2).")
  else if ¬(-1 ≤ growth_rate_6_20 ∧ growth_rate_6_20 ≤ 2) then
    .raised (.valueError "Growth rate (6-20) is outside a reasonable range (-1 to 2).")
  else if ¬(-1 ≤ terminal_growth_rate ∧ terminal_growth_rate ≤ 1) then
    .raised (.valueError "Terminal growth rate is outside a reasonable range (-1 to 1).")
  else if discount_rate ≤ terminal_growth_rate then
    .raised (.valueError "Discount rate must be greater than terminal growth rate.")
  else
    .returned (dcfBody data number_of_years discount_rate growth_rate_1_5
      growth_rate_6_20 terminal_growth_rate)

/-- A Python value stored in the result dictionary. -/
inductive PyVal where
  | pynone
  | num (q : ℚ)
  | numList (l : List ℚ)
  | str (s : String)
deriving DecidableEq

/-- First-match lookup of a key in a dictionary modelled as an
association list. -/
def dictLookup (key : String) : List (String × PyVal) → Option PyVal
  | [] => Option.none
  | (k, v) :: rest => if key = k then some v else dictLookup key rest

/-- The keys of the success dictionary of lines 139-156, in source
order. -/
def valuationKeys : List String :=
  ["Intrinsic Value per Share", "Current Share Price", "Upside/Downside",
   "Free Cash Flow", "Market Cap", "Net Debt", "Projected FCFs",
   "Present Values", "Terminal Value", "Implied Growth Rate",
   "Present Value of Terminal Value", "Enterprise Value", "Equity Value",
   "Shares Outstanding", "Price to FCF (YoY)", "Error Message"]

/-- The literal dictionaries of the source as key-value lists: the error
returns carry a single `Error Message` key; the success return of lines
139-156 carries every valuation field and `Error Message` set to
`None`. -/
def toDict : ResultDict → List (String × PyVal)
  | .errorDict msg => [("Error Message", PyVal.str msg)]
  | .success r =>
    [("Intrinsic Value per Share", PyVal.num r.intrinsicValuePerShare),
     ("Current Share Price", PyVal.num r.currentSharePrice),
     ("Upside/Downside", PyVal.num r.upsideDownside),
     ("Free Cash Flow", PyVal.num r.freeCashFlow),
     ("Market Cap", PyVal.num r.marketCap),
     ("Net Debt", PyVal.num r.netDebt),
     ("Projected FCFs", PyVal.numList r.projectedFCFs),
     ("Present Values", PyVal.numList r.presentValues),
     ("Terminal Value", PyVal.num r.terminalValue),
     ("Implied Growth Rate", PyVal.num r.impliedGrowthRate),
     ("Present Value of Terminal Value", PyVal.num r.presentValueTerminalValue),
     ("Enterprise Value", PyVal.num r.enterpriseValue),
     ("Equity Value", PyVal.num r.equityValue),
     ("Shares Outstanding", PyVal.num r.sharesOutstanding),
     ("Price to FCF (YoY)", PyVal.num r.priceToFCF),
     ("Error Message", PyVal.pynone)]

/-- A sensitivity cell that was stored: the looked-up intrinsic value on
success, or the `None` stored on a caught failure (line 179/181/183). -/
inductive SCell where
  | value (v : PyVal)
  | failed
deriving DecidableEq

/-- One iteration of the inner loop of `sensitivity_analysis`
(lines 170-183), as what it stores into the row dictionary for a given
column key.  In the `g1_5 < g6_20` branch the source assigns the string
sentinel to the local `dcf_result` but never stores anything, so the cell
stays absent (`Option.none` here).  Otherwise the engine is called: a
`ValueError` it raises is caught and `None` is stored; a returned
dictionary stores the value under `Intrinsic Value per Share` when that
key is present and `None` otherwise. -/
def cellResult (data : StockData) (number_of_years : ℤ)
    (discount_rate terminal_growth_rate : ℚ) (g1_5 g6_20 : ℚ) : Option SCell :=
  if g1_5 < g6_20 then
    Option.none
  else
    match discounted_cash_flow data number_of_years discount_rate g1_5 g6_20
        terminal_growth_rate with
    | .raised _ => some SCell.failed
    | .returned dcf_result =>
      match dictLookup "Intrinsic Value per Share" (toDict dcf_result) with
      | some v => some (SCell.value v)
      | Option.none => some SCell.failed

/-- `sensitivity_analysis` (lines 163-195): rows keyed by the near-term
growth values, columns by the long-term growth values, each cell given by
`cellResult`.  `number_of_years` is the module-level global the source
reads inside the loop. -/
def sensitivity_analysis (data : StockData) (number_of_years : ℤ) (discount_rate : ℚ)
    (growth_rate_1_5_range growth_rate_6_20_range : List ℚ)
    (terminal_growth_rate : ℚ) : List (ℚ × List (ℚ × SCell)) :=
  growth_rate_1_5_range.map (fun g1_5 =>
    (g1_5, growth_rate_6_20_range.filterMap (fun g6_20 =>
      (cellResult data number_of_years discount_rate terminal_growth_rate g1_5 g6_20).map
        (fun c => (g6_20, c)))))

/-- First-match lookup of a rational key. -/
def qlookup {α : Type} (key : ℚ) : List (ℚ × α) → Option α
  | [] => Option.none
  | (k, v) :: rest => if key = k then some v else qlookup key rest

/-- The cell stored in a sensitivity table for a row and column key. -/
def cellLookup (table : List (ℚ × List (ℚ × SCell))) (g1 g2 : ℚ) : Option SCell :=
  match qlookup g1 table with
  | Option.none => Option.none
  | some row => qlookup g2 row

/-- Whether an engine call produced anything other than a success
dictionary. -/
def isFailure : EngineOutcome → Bool
  | .returned (.success _) => false
  | _ => true

/-- Whether the engine returned (rather than raised). -/
def isReturned : EngineOutcome → Bool
  | .returned _ => true
  | .raised _ => false

/-- Convenience constructor for a `StockData` whose availability flags are
all set. -/
def mkData (fcf mc cp tl cash sh : Option ℚ) : StockData :=
  { infoValid := true
    cashflowAvailable := true
    balanceSheetAvailable := true
    freeCashFlow := fcf
    marketCap := mc
    currentPrice := cp
    totalLiabilities := tl
    cashAndEquivalents := cash
    sharesOutstanding := sh }

/-- A complete data record used for concrete instances. -/
def dataFull : StockData := mkData (some 2) (some 10) (some 5) (some 3) (some 1) (some 2)

/-- A data record whose market capitalization is missing. -/
def dataNoMC : StockData := mkData (some 2) Option.none (some 5) (some 3) (some 1) (some 2)

/-- A data record matching the projection example of the specification:
base free cash flow of one million. -/
def dataEx : StockData := mkData (some 1000000) (some 1) (some 1) (some 0) (some 0) (some 1)

example : pydiv 4 2 = .ok 2 := by norm_num [pydiv]
example : pydiv 4 0 = .error .zeroDivisionError := by norm_num [pydiv]
example : projectionYears 3 = [1, 2, 3] := by decide
example : projectionYears 0 = [] := by decide
example : projectionYears (-1) = [] := by decide

/-! ## Basic lemmas about the fallible primitives -/

theorem pydiv_ok {a b : ℚ} (h : b ≠ 0) : pydiv a b = .ok (a / b) := by
  simp [pydiv, h]

theorem pydiv_ok_inv {a b v : ℚ} (h : pydiv a b = .ok v) : v = a / b := by
  unfold pydiv at h
  split at h
  · exact Except.noConfusion h
  · exact (Except.ok.inj h).symm

theorem pylast_ok {l : List ℚ} {v : ℚ} (h : l.getLast? = some v) : pylast l = .ok v := by
  unfold pylast
  rw [h]

theorem pylast_ok_inv {l : List ℚ} {v : ℚ} (h : pylast l = .ok v) :
    l.getLast? = some v := by
  unfold pylast at h
  cases hl : l.getLast? with
  | none => rw [hl] at h; exact Except.noConfusion h
  | some w => rw [hl] at h; rw [Except.ok.inj h]

theorem pvList_ok {fcf g1 g2 dr : ℚ} {l : List ℕ}
    (h : ∀ y ∈ l, ((1 : ℚ) + dr) ^ y ≠ 0) :
    pvList fcf g1 g2 dr l
      = .ok (l.map fun y => fcf * (1 + growthFor g1 g2 y) ^ y / (1 + dr) ^ y) := by
  induction l with
  | nil => rfl
  | cons y rest ih =>
    rw [pvList, pydiv_ok (h y (List.mem_cons_self y rest)),
      ih (fun z hz => h z (List.mem_cons_of_mem y hz))]
    rfl

theorem pvList_ok_inv {fcf g1 g2 dr : ℚ} {l : List ℕ} {vs : List ℚ}
    (h : pvList fcf g1 g2 dr l = .ok vs) :
    vs = l.map fun y => fcf * (1 + growthFor g1 g2 y) ^ y / (1 + dr) ^ y := by
  induction l generalizing vs with
  | nil =>
    rw [pvList] at h
    rw [← Except.ok.inj h]
    rfl
  | cons y rest ih =>
    rw [pvList] at h
    cases hd : pydiv (fcf * (1 + growthFor g1 g2 y) ^ y) ((1 + dr) ^ y) with
    | error e => rw [hd] at h; exact Except.noConfusion h
    | ok pv =>
      rw [hd] at h
      cases hr : pvList fcf g1 g2 dr rest with
      | error e => rw [hr] at h; exact Except.noConfusion h
      | ok pvs =>
        rw [hr] at h
        rw [← Except.ok.inj h, List.map_cons, ← ih hr, pydiv_ok_inv hd]

/-! ## Lemmas about the projection-year list -/

theorem projectionYears_nil {n : ℤ} (h : n ≤ 0) : projectionYears n = [] := by
  unfold projectionYears
  have : n.toNat = 0 := by omega
  rw [this]
  rfl

theorem projectionYears_getLast {n : ℤ} (h : 1 ≤ n) :
    (projectionYears n).getLast? = some n.toNat := by
  unfold projectionYears
  obtain ⟨m, hm⟩ : ∃ m, n.toNat = m + 1 := ⟨n.toNat - 1, by omega⟩
  rw [hm, List.range'_concat, List.getLast?_concat]
  congr 1
  omega

theorem projectionYears_getElem {n : ℤ} {i : ℕ} (h : (i : ℤ) < n) :
    (projectionYears n)[i]? = some (1 + i) := by
  unfold projectionYears
  rw [List.getElem?_range' 1 1 (by omega)]
  simp

theorem projectionYears_mem {n : ℤ} {y : ℕ} :
    y ∈ projectionYears n ↔ 1 ≤ y ∧ (y : ℤ) ≤ n := by
  unfold projectionYears
  rw [List.mem_range'_1]
  omega

/-! ## Characterization of a successful engine run -/

/-- Inverting a successful `discounted_cash_flow` run: every data figure
was present and each field of the success dictionary is given by the
formulas of lines 119-156. -/
theorem dcf_success_spec (data : StockData) (n : ℤ) (dr g1 g2 tgr : ℚ) (r : DCFSuccess)
    (h : discounted_cash_flow data n dr g1 g2 tgr = .returned (.success r)) :
    ∃ fcf mc cp tl cash sh,
      data.freeCashFlow = some fcf ∧ data.marketCap = some mc ∧
      data.currentPrice = some cp ∧ data.totalLiabilities = some tl ∧
      data.cashAndEquivalents = some cash ∧ data.sharesOutstanding = some sh ∧
      r.freeCashFlow = fcf ∧ r.marketCap = mc ∧ r.currentSharePrice = cp ∧
      r.netDebt = tl - cash ∧ r.sharesOutstanding = sh ∧
      r.projectedFCFs = (projectionYears n).map
        (fun y => fcf * (1 + growthFor g1 g2 y) ^ y) ∧
      r.presentValues = (projectionYears n).map
        (fun y => fcf * (1 + growthFor g1 g2 y) ^ y / (1 + dr) ^ y) ∧
      (∃ last_fcf, r.projectedFCFs.getLast? = some last_fcf ∧
        r.terminalValue = last_fcf * (1 + tgr) / (dr - tgr)) ∧
      r.presentValueTerminalValue = r.terminalValue / (1 + dr) ^ n ∧
      r.enterpriseValue = r.presentValues.sum + r.presentValueTerminalValue ∧
      r.equityValue = r.enterpriseValue - r.netDebt ∧
      r.intrinsicValuePerShare = r.equityValue / sh ∧
      r.upsideDownside = (r.intrinsicValuePerShare - cp) / cp ∧
      r.priceToFCF = mc / fcf := by
  unfold discounted_cash_flow at h
  split at h
  · exact EngineOutcome.noConfusion h
  split at h
  · exact EngineOutcome.noConfusion h
  split at h
  · exact EngineOutcome.noConfusion h
  split at h
  · exact EngineOutcome.noConfusion h
  split at h
  · exact EngineOutcome.noConfusion h
  have hbody : dcfBody data n dr g1 g2 tgr = .success r := EngineOutcome.returned.inj h
  unfold dcfBody at hbody
  cases htry : dcfTry data n dr g1 g2 tgr with
  | error e => rw [htry] at hbody; exact ResultDict.noConfusion hbody
  | ok d =>
  rw [htry] at hbody
  subst hbody
  unfold dcfTry at htry
  split at htry
  · exact ResultDict.noConfusion (Except.ok.inj htry)
  split at htry
  · exact ResultDict.noConfusion (Except.ok.inj htry)
  split at htry
  · exact ResultDict.noConfusion (Except.ok.inj htry)
  cases hfcf : data.freeCashFlow with
  | none => rw [hfcf] at htry; simp at htry
  | some fcf =>
  simp only [hfcf] at htry
  cases hmc : data.marketCap with
  | none => rw [hmc] at htry; simp at htry
  | some mc =>
  simp only [hmc] at htry
  cases hcp : data.currentPrice with
  | none => rw [hcp] at htry; simp at htry
  | some cp =>
  simp only [hcp] at htry
  cases htl : data.totalLiabilities with
  | none => rw [htl] at htry; simp at htry
  | some tl =>
  simp only [htl] at htry
  cases hcash : data.cashAndEquivalents with
  | none => rw [hcash] at htry; simp at htry
  | some cash =>
  simp only [hcash] at htry
  cases hsh : data.sharesOutstanding with
  | none => rw [hsh] at htry; simp at htry
  | some sh =>
  simp only [hsh] at htry
  unfold computePart at htry
  simp only [] at htry
  cases hpv : pvList fcf g1 g2 dr (projectionYears n) with
  | error e => simp [hpv] at htry
  | ok pvs =>
  simp only [hpv] at htry
  cases hlast : pylast ((projectionYears n).map fun y => fcf * (1 + growthFor g1 g2 y) ^ y) with
  | error e => simp [hlast] at htry
  | ok last_fcf =>
  simp only [hlast] at htry
  cases htv : pydiv (last_fcf * (1 + tgr)) (dr - tgr) with
  | error e => simp [htv] at htry
  | ok tv =>
  simp only [htv] at htry
  cases hptv : pydiv tv ((1 + dr) ^ n) with
  | error e => simp [hptv] at htry
  | ok ptv =>
  simp only [hptv] at htry
  cases hiv : pydiv (pvs.sum + ptv - (tl - cash)) sh with
  | error e => simp [hiv] at htry
  | ok iv =>
  simp only [hiv] at htry
  cases hud : pydiv (iv - cp) cp with
  | error e => simp [hud] at htry
  | ok ud =>
  simp only [hud] at htry
  cases hftv : pydiv fcf tv with
  | error e => simp [hftv] at htry
  | ok ftv =>
  simp only [hftv] at htry
  cases hig : pydiv (dr - ftv) (1 + ftv) with
  | error e => simp [hig] at htry
  | ok ig =>
  simp only [hig] at htry
  cases hpf : pydiv mc fcf with
  | error e => simp [hpf] at htry
  | ok pf =>
  simp only [hpf] at htry
  have hr := (ResultDict.success.inj (Except.ok.inj htry)).symm
  subst hr
  refine ⟨fcf, mc, cp, tl, cash, sh, rfl, rfl, rfl, rfl, rfl, rfl,
    rfl, rfl, rfl, rfl, rfl, rfl, pvList_ok_inv hpv,
    ⟨last_fcf, pylast_ok_inv hlast, pydiv_ok_inv htv⟩,
    pydiv_ok_inv hptv, rfl, rfl, pydiv_ok_inv hiv, pydiv_ok_inv hud,
    pydiv_ok_inv hpf⟩

/-- When the five value checks of lines 62-71 all pass, no exception is
raised at the boundary and the body result is returned. -/
theorem dcf_validation_pass (data : StockData) (n : ℤ) {dr g1 g2 tgr : ℚ}
    (h1 : 0 ≤ dr) (h2 : dr ≤ 1) (h3 : -1 ≤ g1) (h4 : g1 ≤ 2)
    (h5 : -1 ≤ g2) (h6 : g2 ≤ 2) (h7 : -1 ≤ tgr) (h8 : tgr ≤ 1) (h9 : tgr < dr) :
    discounted_cash_flow data n dr g1 g2 tgr
      = .returned (dcfBody data n dr g1 g2 tgr) := by
  unfold discounted_cash_flow
  rw [if_neg (not_not_intro ⟨h1, h2⟩), if_neg (not_not_intro ⟨h3, h4⟩),
    if_neg (not_not_intro ⟨h5, h6⟩), if_neg (not_not_intro ⟨h7, h8⟩),
    if_neg (not_le.mpr h9)]

/-! ## Claim C1: projection and discounting formulas -/

/-- C1: on every successful evaluation, the projected free cash flow of
year `year` (1-based) is `free_cash_flow * (1 + g) ^ year` with `g` the
near-term rate for years up to 5 and the long-term rate afterwards —
compounded from the base figure, not chained from the previous projected
year — and the present value of that year is the projected figure divided
by `(1 + discount_rate) ^ year`. -/
theorem dcf_projection_formula
    (data : StockData) (n : ℤ) (dr g1 g2 tgr fcf : ℚ) (r : DCFSuccess) (year : ℕ)
    (hfcf : data.freeCashFlow = some fcf)
    (hres : discounted_cash_flow data n dr g1 g2 tgr = .returned (.success r))
    (hy1 : 1 ≤ year) (hy2 : (year : ℤ) ≤ n) :
    r.projectedFCFs[year - 1]?
      = some (fcf * (1 + (if year ≤ 5 then g1 else g2)) ^ year) ∧
    r.presentValues[year - 1]?
      = some (fcf * (1 + (if year ≤ 5 then g1 else g2)) ^ year / (1 + dr) ^ year) := by
  obtain ⟨fcf', _, _, _, _, _, hfcf', _, _, _, _, _, _, _, _, _, _, hproj, hpv, _⟩ :=
    dcf_success_spec data n dr g1 g2 tgr r hres
  rw [hfcf] at hfcf'
  obtain rfl : fcf = fcf' := Option.some.inj hfcf'
  have hidx : 1 + (year - 1) = year := by omega
  constructor
  · rw [hproj, List.getElem?_map, projectionYears_getElem (by omega), Option.map_some',
      hidx]
    simp [growthFor]
  · rw [hpv, List.getElem?_map, projectionYears_getElem (by omega), Option.map_some',
      hidx]
    simp [growthFor]

/-- The success record produced for `dataEx` with a two-year horizon,
a 9 percent discount rate, 10 percent near-term growth, 5 percent
long-term growth and 3 percent terminal growth. -/
def rEx : DCFSuccess :=
  { intrinsicValuePerShare := 6380000000 / 327
    currentSharePrice := 1
    upsideDownside := 6379999673 / 327
    freeCashFlow := 1000000
    marketCap := 1
    netDebt := 0
    projectedFCFs := [1100000, 1210000]
    presentValues := [110000000 / 109, 12100000000 / 11881]
    terminalValue := 62315000 / 3
    impliedGrowthRate := 52167 / 1306300
    presentValueTerminalValue := 623150000000 / 35643
    enterpriseValue := 6380000000 / 327
    equityValue := 6380000000 / 327
    sharesOutstanding := 1
    priceToFCF := 1 / 1000000 }

/-- Witness for C1 at the example of the specification: base free cash
flow of one million and 10 percent near-term growth give projected FCFs of
1,100,000 and 1,210,000 for years one and two — the year-two figure from
the base, not from the year-one projection — and the year-two present
value is the projected figure divided by the squared discount factor. -/
theorem dcf_projection_formula_witness :
    rEx.projectedFCFs[0]? = some 1100000 ∧
    rEx.projectedFCFs[1]? = some 1210000 ∧
    rEx.presentValues[1]? = some (1210000 / (1 + 9 / 100) ^ 2) := by
  have hres : discounted_cash_flow dataEx 2 (9/100) (1/10) (1/20) (3/100)
      = .returned (.success rEx) := by
    norm_num [discounted_cash_flow, dcfBody, dcfTry, computePart, pvList, pydiv, pylast,
      growthFor, projectionYears, mkData, dataEx, List.range', rEx]
  have h1 := dcf_projection_formula dataEx 2 (9/100) (1/10) (1/20) (3/100) 1000000 rEx 1
    rfl hres (by norm_num) (by norm_num)
  have h2 := dcf_projection_formula dataEx 2 (9/100) (1/10) (1/20) (3/100) 1000000 rEx 2
    rfl hres (by norm_num) (by norm_num)
  refine ⟨?_, ?_, ?_⟩
  · have := h1.1
    norm_num at this ⊢
    exact this
  · have := h2.1
    norm_num at this ⊢
    exact this
  · have := h2.2
    norm_num at this ⊢
    exact this

/-! ## Claim C6: terminal value and equity formulas -/

/-- C6: on every successful evaluation the terminal value, its present
value, the enterprise value, the net debt, the equity value, the intrinsic
value per share and the upside/downside ratio satisfy the formulas of
lines 129-136 of the source. -/
theorem dcf_terminal_and_equity_formulas
    (data : StockData) (n : ℤ) (dr g1 g2 tgr cp tl cash sh : ℚ) (r : DCFSuccess)
    (hcp : data.currentPrice = some cp) (htl : data.totalLiabilities = some tl)
    (hcash : data.cashAndEquivalents = some cash)
    (hsh : data.sharesOutstanding = some sh)
    (hres : discounted_cash_flow data n dr g1 g2 tgr = .returned (.success r)) :
    (∃ last_fcf, r.projectedFCFs.getLast? = some last_fcf ∧
      r.terminalValue = last_fcf * (1 + tgr) / (dr - tgr)) ∧
    r.presentValueTerminalValue = r.terminalValue / (1 + dr) ^ n ∧
    r.enterpriseValue = r.presentValues.sum + r.presentValueTerminalValue ∧
    r.netDebt = tl - cash ∧
    r.equityValue = r.enterpriseValue - (tl - cash) ∧
    r.intrinsicValuePerShare = r.equityValue / sh ∧
    r.upsideDownside = (r.intrinsicValuePerShare - cp) / cp := by
  obtain ⟨fcf', mc', cp', tl', cash', sh', hfcf', hmc', hcp', htl', hcash', hsh',
    _, _, _, hnd, _, _, _, hlast, hptv, hev, heq, hiv, hud, _⟩ :=
    dcf_success_spec data n dr g1 g2 tgr r hres
  rw [hcp] at hcp'
  obtain rfl : cp = cp' := Option.some.inj hcp'
  rw [htl] at htl'
  obtain rfl : tl = tl' := Option.some.inj htl'
  rw [hcash] at hcash'
  obtain rfl : cash = cash' := Option.some.inj hcash'
  rw [hsh] at hsh'
  obtain rfl : sh = sh' := Option.some.inj hsh'
  refine ⟨hlast, hptv, hev, hnd, ?_, hiv, hud⟩
  rw [heq, hnd]

/-- The success record produced for `dataFull` with a one-year horizon, a
10 percent discount rate, 10 percent near-term growth, 5 percent
long-term growth and zero terminal growth. -/
def rW : DCFSuccess :=
  { intrinsicValuePerShare := 10
    currentSharePrice := 5
    upsideDownside := 1
    freeCashFlow := 2
    marketCap := 10
    netDebt := 2
    projectedFCFs := [11 / 5]
    presentValues := [2]
    terminalValue := 22
    impliedGrowthRate := 1 / 120
    presentValueTerminalValue := 20
    enterpriseValue := 22
    equityValue := 20
    sharesOutstanding := 2
    priceToFCF := 5 }

/-- Witness for C6 on a concrete successful run. -/
theorem dcf_terminal_and_equity_formulas_witness :
    (∃ last_fcf, rW.projectedFCFs.getLast? = some last_fcf ∧
      rW.terminalValue = last_fcf * (1 + 0) / (1 / 10 - 0)) ∧
    rW.presentValueTerminalValue = rW.terminalValue / (1 + 1 / 10) ^ (1 : ℤ) ∧
    rW.enterpriseValue = rW.presentValues.sum + rW.presentValueTerminalValue ∧
    rW.netDebt = 3 - 1 ∧
    rW.equityValue = rW.enterpriseValue - (3 - 1) ∧
    rW.intrinsicValuePerShare = rW.equityValue / 2 ∧
    rW.upsideDownside = (rW.intrinsicValuePerShare - 5) / 5 := by
  have hres : discounted_cash_flow dataFull 1 (1/10) (1/10) (1/20) 0
      = .returned (.success rW) := by
    norm_num [discounted_cash_flow, dcfBody, dcfTry, computePart, pvList, pydiv, pylast,
      growthFor, projectionYears, mkData, dataFull, List.range', rW]
  exact dcf_terminal_and_equity_formulas dataFull 1 (1/10) (1/10) (1/20) 0 5 3 1 2 rW
    rfl rfl rfl rfl hres

/-! ## Claim C3: propagation policy at the engine boundary -/

/-- C3 counterexample: an out-of-range discount rate — an expected
validation condition — is raised as a `ValueError` past the boundary of
`discounted_cash_flow` instead of being returned as a result value. -/
theorem dcf_raises_on_invalid_discount_rate :
    discounted_cash_flow dataFull 6 2 (1/10) (1/20) (3/100)
      = .raised (.valueError "Discount rate must be between 0 and 1.") := by
  norm_num [discounted_cash_flow]

/-- C3 amended: once the five rate checks pass, the engine always returns
a dictionary — missing data, degenerate divisions and the empty-horizon
fault are all converted to returned values, never raised. -/
theorem dcf_returns_when_rates_valid (data : StockData) (n : ℤ) (dr g1 g2 tgr : ℚ)
    (h1 : 0 ≤ dr) (h2 : dr ≤ 1) (h3 : -1 ≤ g1) (h4 : g1 ≤ 2)
    (h5 : -1 ≤ g2) (h6 : g2 ≤ 2) (h7 : -1 ≤ tgr) (h8 : tgr ≤ 1) (h9 : tgr < dr) :
    isReturned (discounted_cash_flow data n dr g1 g2 tgr) = true := by
  rw [dcf_validation_pass data n h1 h2 h3 h4 h5 h6 h7 h8 h9]
  rfl

/-- Witness for the amended C3. -/
theorem dcf_returns_when_rates_valid_witness :
    isReturned (discounted_cash_flow dataNoMC 6 (9/100) (1/10) (1/20) (3/100)) = true :=
  dcf_returns_when_rates_valid dataNoMC 6 (9/100) (1/10) (1/20) (3/100)
    (by norm_num) (by norm_num) (by norm_num) (by norm_num) (by norm_num)
    (by norm_num) (by norm_num) (by norm_num) (by norm_num)

/-! ## Claim C5: validation order and distinct errors -/

/-- C5 counterexample: with `discount_rate = terminal_growth_rate = 1/2`
but a near-term growth rate of 5, the ordering violation holds and yet the
engine raises the near-term-growth error, not the ordering error — the
ordering error is not produced regardless of other inputs. -/
theorem dcf_ordering_error_not_unconditional :
    ((1 : ℚ) / 2 ≤ 1 / 2) ∧
    discounted_cash_flow dataFull 6 (1/2) 5 (1/20) (1/2)
      = .raised (.valueError "Growth rate (1-5) is outside a reasonable range (-1 to 2).") ∧
    discounted_cash_flow dataFull 6 (1/2) 5 (1/20) (1/2)
      ≠ .raised (.valueError "Discount rate must be greater than terminal growth rate.") := by
  have h : discounted_cash_flow dataFull 6 (1/2) 5 (1/20) (1/2)
      = .raised (.valueError "Growth rate (1-5) is outside a reasonable range (-1 to 2).") := by
    norm_num [discounted_cash_flow]
  exact ⟨by norm_num, h, by rw [h]; decide⟩

/-- C5 amended: the five checks of lines 62-71 fire in a fixed order
(discount range, near-term growth range, long-term growth range, terminal
growth range, ordering); the engine raises the distinct error of the first
violated check, before any data access, projection or discounting
(the data record and the horizon are arbitrary), and the ordering error is
raised whenever the four range checks pass and
`discount_rate <= terminal_growth_rate`. -/
theorem dcf_validation_error_order (data : StockData) (n : ℤ) (dr g1 g2 tgr : ℚ) :
    (¬(0 ≤ dr ∧ dr ≤ 1) →
      discounted_cash_flow data n dr g1 g2 tgr
        = .raised (.valueError "Discount rate must be between 0 and 1.")) ∧
    ((0 ≤ dr ∧ dr ≤ 1) → ¬(-1 ≤ g1 ∧ g1 ≤ 2) →
      discounted_cash_flow data n dr g1 g2 tgr
        = .raised (.valueError "Growth rate (1-5) is outside a reasonable range (-1 to 2).")) ∧
    ((0 ≤ dr ∧ dr ≤ 1) → (-1 ≤ g1 ∧ g1 ≤ 2) → ¬(-1 ≤ g2 ∧ g2 ≤ 2) →
      discounted_cash_flow data n dr g1 g2 tgr
        = .raised (.valueError "Growth rate (6-20) is outside a reasonable range (-1 to 2).")) ∧
    ((0 ≤ dr ∧ dr ≤ 1) → (-1 ≤ g1 ∧ g1 ≤ 2) → (-1 ≤ g2 ∧ g2 ≤ 2) →
        ¬(-1 ≤ tgr ∧ tgr ≤ 1) →
      discounted_cash_flow data n dr g1 g2 tgr
        = .raised (.valueError "Terminal growth rate is outside a reasonable range (-1 to 1).")) ∧
    ((0 ≤ dr ∧ dr ≤ 1) → (-1 ≤ g1 ∧ g1 ≤ 2) → (-1 ≤ g2 ∧ g2 ≤ 2) →
        (-1 ≤ tgr ∧ tgr ≤ 1) → dr ≤ tgr →
      discounted_cash_flow data n dr g1 g2 tgr
        = .raised (.valueError "Discount rate must be greater than terminal growth rate.")) := by
  unfold discounted_cash_flow
  refine ⟨fun h => ?_, fun ha hb => ?_, fun ha hb hc => ?_, fun ha hb hc hd => ?_,
    fun ha hb hc hd he => ?_⟩
  · rw [if_pos h]
  · rw [if_neg (not_not_intro ha), if_pos hb]
  · rw [if_neg (not_not_intro ha), if_neg (not_not_intro hb), if_pos hc]
  · rw [if_neg (not_not_intro ha), if_neg (not_not_intro hb), if_neg (not_not_intro hc),
      if_pos hd]
  · rw [if_neg (not_not_intro ha), if_neg (not_not_intro hb), if_neg (not_not_intro hc),
      if_neg (not_not_intro hd), if_pos he]

/-- Witness for the amended C5: each of the five checks observed firing
first on a concrete input. -/
theorem dcf_validation_error_order_witness :
    discounted_cash_flow dataFull 6 2 0 0 0
      = .raised (.valueError "Discount rate must be between 0 and 1.") ∧
    discounted_cash_flow dataFull 6 (1/2) 5 0 0
      = .raised (.valueError "Growth rate (1-5) is outside a reasonable range (-1 to 2).") ∧
    discounted_cash_flow dataFull 6 (1/2) 0 5 0
      = .raised (.valueError "Growth rate (6-20) is outside a reasonable range (-1 to 2).") ∧
    discounted_cash_flow dataFull 6 (1/2) 0 0 2
      = .raised (.valueError "Terminal growth rate is outside a reasonable range (-1 to 1).") ∧
    discounted_cash_flow dataFull 6 (1/2) 0 0 (1/2)
      = .raised (.valueError "Discount rate must be greater than terminal growth rate.") :=
  ⟨(dcf_validation_error_order dataFull 6 2 0 0 0).1 (by norm_num),
   (dcf_validation_error_order dataFull 6 (1/2) 5 0 0).2.1 (by norm_num) (by norm_num),
   (dcf_validation_error_order dataFull 6 (1/2) 0 5 0).2.2.1 (by norm_num) (by norm_num)
     (by norm_num),
   (dcf_validation_error_order dataFull 6 (1/2) 0 0 2).2.2.2.1 (by norm_num) (by norm_num)
     (by norm_num) (by norm_num),
   (dcf_validation_error_order dataFull 6 (1/2) 0 0 (1/2)).2.2.2.2 (by norm_num)
     (by norm_num) (by norm_num) (by norm_num) (by norm_num)⟩

/-! ## Claim C8: missing-data errors -/

/-- C8 counterexample: a missing total-liabilities figure and a missing
cash-and-equivalents figure produce the identical error dictionary, so the
six required fields do not yield six mutually distinguishable errors. -/
theorem dcf_net_debt_error_conflates_fields :
    discounted_cash_flow
        (mkData (some 2) (some 10) (some 5) Option.none (some 1) (some 2))
        6 (9/100) (1/10) (1/20) (3/100)
      = .returned (.errorDict "Net Debt data unavailable") ∧
    discounted_cash_flow
        (mkData (some 2) (some 10) (some 5) (some 3) Option.none (some 2))
        6 (9/100) (1/10) (1/20) (3/100)
      = .returned (.errorDict "Net Debt data unavailable") := by
  constructor <;>
  · rw [dcf_validation_pass _ _ (by norm_num) (by norm_num) (by norm_num) (by norm_num)
      (by norm_num) (by norm_num) (by norm_num) (by norm_num) (by norm_num)]
    rfl

/-- C8 amended: with valid rates, a missing free cash flow, market
capitalization, current price or share count each produce their own named
error dictionary, while a missing total-liabilities figure and a missing
cash-and-equivalents figure both produce the same net-debt error. -/
theorem dcf_missing_field_errors (fcf mc cp tl cash sh : ℚ) (n : ℤ) (dr g1 g2 tgr : ℚ)
    (h1 : 0 ≤ dr) (h2 : dr ≤ 1) (h3 : -1 ≤ g1) (h4 : g1 ≤ 2)
    (h5 : -1 ≤ g2) (h6 : g2 ≤ 2) (h7 : -1 ≤ tgr) (h8 : tgr ≤ 1) (h9 : tgr < dr) :
    discounted_cash_flow
        (mkData Option.none (some mc) (some cp) (some tl) (some cash) (some sh))
        n dr g1 g2 tgr
      = .returned (.errorDict "Free Cash Flow data unavailable.") ∧
    discounted_cash_flow
        (mkData (some fcf) Option.none (some cp) (some tl) (some cash) (some sh))
        n dr g1 g2 tgr
      = .returned (.errorDict "Market capitalization data unavailable.") ∧
    discounted_cash_flow
        (mkData (some fcf) (some mc) Option.none (some tl) (some cash) (some sh))
        n dr g1 g2 tgr
      = .returned (.errorDict "Current price data unavailable.") ∧
    discounted_cash_flow
        (mkData (some fcf) (some mc) (some cp) (some tl) (some cash) Option.none)
        n dr g1 g2 tgr
      = .returned (.errorDict "Shares outstanding unavailable.") ∧
    discounted_cash_flow
        (mkData (some fcf) (some mc) (some cp) Option.none (some cash) (some sh))
        n dr g1 g2 tgr
      = .returned (.errorDict "Net Debt data unavailable") ∧
    discounted_cash_flow
        (mkData (some fcf) (some mc) (some cp) (some tl) Option.none (some sh))
        n dr g1 g2 tgr
      = .returned (.errorDict "Net Debt data unavailable") := by
  refine ⟨?_, ?_, ?_, ?_, ?_, ?_⟩ <;>
  · rw [dcf_validation_pass _ _ h1 h2 h3 h4 h5 h6 h7 h8 h9]
    rfl

/-- Witness for the amended C8. -/
theorem dcf_missing_field_errors_witness :
    discounted_cash_flow
        (mkData Option.none (some 10) (some 5) (some 3) (some 1) (some 2))
        6 (9/100) (1/10) (1/20) (3/100)
      = .returned (.errorDict "Free Cash Flow data unavailable.") ∧
    discounted_cash_flow
        (mkData (some 2) Option.none (some 5) (some 3) (some 1) (some 2))
        6 (9/100) (1/10) (1/20) (3/100)
      = .returned (.errorDict "Market capitalization data unavailable.") ∧
    discounted_cash_flow
        (mkData (some 2) (some 10) Option.none (some 3) (some 1) (some 2))
        6 (9/100) (1/10) (1/20) (3/100)
      = .returned (.errorDict "Current price data unavailable.") ∧
    discounted_cash_flow
        (mkData (some 2) (some 10) (some 5) (some 3) (some 1) Option.none)
        6 (9/100) (1/10) (1/20) (3/100)
      = .returned (.errorDict "Shares outstanding unavailable.") ∧
    discounted_cash_flow
        (mkData (some 2) (some 10) (some 5) Option.none (some 1) (some 2))
        6 (9/100) (1/10) (1/20) (3/100)
      = .returned (.errorDict "Net Debt data unavailable") ∧
    discounted_cash_flow
        (mkData (some 2) (some 10) (some 5) (some 3) Option.none (some 2))
        6 (9/100) (1/10) (1/20) (3/100)
      = .returned (.errorDict "Net Debt data unavailable") :=
  dcf_missing_field_errors 2 10 5 3 1 2 6 (9/100) (1/10) (1/20) (3/100)
    (by norm_num) (by norm_num) (by norm_num) (by norm_num) (by norm_num)
    (by norm_num) (by norm_num) (by norm_num) (by norm_num)

/-! ## Claim C9: non-positive horizon -/

/-- C9: a non-positive horizon is not rejected by any validation check;
the projection loop is empty, the `[-1]` access on the empty projected
list raises `IndexError`, and the engine returns the generic
unexpected-error dictionary. -/
theorem dcf_nonpositive_horizon_generic_error
    (fcf mc cp tl cash sh : ℚ) (n : ℤ) (dr g1 g2 tgr : ℚ)
    (h1 : 0 ≤ dr) (h2 : dr ≤ 1) (h3 : -1 ≤ g1) (h4 : g1 ≤ 2)
    (h5 : -1 ≤ g2) (h6 : g2 ≤ 2) (h7 : -1 ≤ tgr) (h8 : tgr ≤ 1) (h9 : tgr < dr)
    (hn : n ≤ 0) :
    projectionYears n = [] ∧
    discounted_cash_flow
        (mkData (some fcf) (some mc) (some cp) (some tl) (some cash) (some sh))
        n dr g1 g2 tgr
      = .returned (.errorDict "An unexpected error occurred: list index out of range") := by
  refine ⟨projectionYears_nil hn, ?_⟩
  rw [dcf_validation_pass _ _ h1 h2 h3 h4 h5 h6 h7 h8 h9]
  have hbody : dcfBody
      (mkData (some fcf) (some mc) (some cp) (some tl) (some cash) (some sh))
      n dr g1 g2 tgr
      = .errorDict "An unexpected error occurred: list index out of range" := by
    unfold dcfBody dcfTry computePart
    rw [projectionYears_nil hn]
    norm_num [mkData, pvList, pylast, pyExcMsg]
    rfl
  rw [hbody]

/-- Witness for C9 at a zero horizon. -/
theorem dcf_nonpositive_horizon_generic_error_witness :
    projectionYears 0 = [] ∧
    discounted_cash_flow
        (mkData (some 2) (some 10) (some 5) (some 3) (some 1) (some 2))
        0 (9/100) (1/10) (1/20) (3/100)
      = .returned (.errorDict "An unexpected error occurred: list index out of range") :=
  dcf_nonpositive_horizon_generic_error 2 10 5 3 1 2 0 (9/100) (1/10) (1/20) (3/100)
    (by norm_num) (by norm_num) (by norm_num) (by norm_num) (by norm_num)
    (by norm_num) (by norm_num) (by norm_num) (by norm_num) (le_refl 0)

/-! ## Claim C10: the returned dictionaries -/

/-- C10: every dictionary the engine returns carries the `Error Message`
key; that key holds `None` exactly when the dictionary is the complete
success dictionary with every valuation key, and a failure dictionary
consists of nothing but a non-`None` `Error Message`. -/
theorem dcf_error_message_discipline (data : StockData) (n : ℤ) (dr g1 g2 tgr : ℚ)
    (d : ResultDict)
    (_hret : discounted_cash_flow data n dr g1 g2 tgr = .returned d) :
    dictLookup "Error Message" (toDict d) ≠ Option.none ∧
    (dictLookup "Error Message" (toDict d) = some PyVal.pynone ↔
      (toDict d).map Prod.fst = valuationKeys) ∧
    (dictLookup "Error Message" (toDict d) ≠ some PyVal.pynone →
      ∃ msg, toDict d = [("Error Message", PyVal.str msg)]) := by
  clear _hret
  cases d with
  | errorDict msg =>
    refine ⟨?_, ?_, fun _ => ⟨msg, rfl⟩⟩
    · simp [toDict, dictLookup]
    · constructor
      · intro hc
        simp [toDict, dictLookup] at hc
      · intro hk
        simp [toDict, valuationKeys] at hk
  | success r =>
    refine ⟨?_, ?_, fun hne => absurd ?_ hne⟩
    · simp [toDict, dictLookup]
    · simp [toDict, dictLookup, valuationKeys]
    · show dictLookup "Error Message" (toDict (.success r)) = some PyVal.pynone
      simp [toDict, dictLookup]

/-- Witness for C10 on a concrete returned failure dictionary. -/
theorem dcf_error_message_discipline_witness :
    dictLookup "Error Message"
        (toDict (.errorDict "Market capitalization data unavailable.")) ≠ Option.none ∧
    (dictLookup "Error Message"
        (toDict (.errorDict "Market capitalization data unavailable.")) = some PyVal.pynone ↔
      (toDict (ResultDict.errorDict "Market capitalization data unavailable.")).map Prod.fst
        = valuationKeys) ∧
    (dictLookup "Error Message"
        (toDict (.errorDict "Market capitalization data unavailable.")) ≠ some PyVal.pynone →
      ∃ msg, toDict (ResultDict.errorDict "Market capitalization data unavailable.")
        = [("Error Message", PyVal.str msg)]) :=
  dcf_error_message_discipline dataNoMC 6 (9/100) (1/10) (1/20) (3/100)
    (.errorDict "Market capitalization data unavailable.") (by
      rw [dcf_validation_pass dataNoMC 6 (by norm_num) (by norm_num) (by norm_num)
        (by norm_num) (by norm_num) (by norm_num) (by norm_num) (by norm_num) (by norm_num)]
      rfl)

/-! ## Claim C2: the excluded pair of the sensitivity grid -/

/-- C2: for a swept pair with the near-term rate below the long-term rate,
the engine is never called, but the row dictionary also receives no entry
at all for that column — the `dcf_result` sentinel assigned at line 173 is
never stored, so the cell is absent instead of holding an excluded
sentinel, and it is indistinguishable from a missing value.  Here the only
swept pair is excluded and the resulting row is empty. -/
theorem sensitivity_excluded_cell_absent :
    sensitivity_analysis dataFull 6 (9/100) [0] [1/20] (3/100) = [(0, [])] ∧
    cellLookup (sensitivity_analysis dataFull 6 (9/100) [0] [1/20] (3/100)) 0 (1/20)
      = Option.none := by
  have h : sensitivity_analysis dataFull 6 (9/100) [0] [1/20] (3/100) = [(0, [])] := by
    norm_num [sensitivity_analysis, cellResult]
  refine ⟨h, ?_⟩
  rw [h]
  norm_num [cellLookup, qlookup]

/-! ## Claim C7: grid isolation -/

theorem qlookup_map_self {α : Type} (f : ℚ → α) {l : List ℚ} {a : ℚ} (h : a ∈ l) :
    qlookup a (l.map fun x => (x, f x)) = some (f a) := by
  induction l with
  | nil => exact absurd h (List.not_mem_nil a)
  | cons b t ih =>
    rw [List.map_cons, qlookup]
    by_cases hab : a = b
    · rw [if_pos hab, hab]
    · rw [if_neg hab]
      exact ih ((List.mem_cons.mp h).resolve_left hab)

theorem qlookup_filterMap_of_none {F : ℚ → Option SCell} {t : List ℚ} {g2 : ℚ}
    (h : F g2 = Option.none) :
    qlookup g2 (t.filterMap fun x => (F x).map fun c => (x, c)) = Option.none := by
  induction t with
  | nil => rfl
  | cons b t ih =>
    cases hb : F b with
    | none => simpa [List.filterMap_cons, hb] using ih
    | some c =>
      have hg : g2 ≠ b := by
        intro he
        rw [he, hb] at h
        exact Option.noConfusion h
      simpa [List.filterMap_cons, hb, qlookup, if_neg hg] using ih

theorem qlookup_filterMap_cell {F : ℚ → Option SCell} {r2 : List ℚ} {g2 : ℚ}
    (h : g2 ∈ r2) :
    qlookup g2 (r2.filterMap fun x => (F x).map fun c => (x, c)) = F g2 := by
  induction r2 with
  | nil => exact absurd h (List.not_mem_nil g2)
  | cons b t ih =>
    cases hb : F b with
    | none =>
      by_cases hg : g2 = b
      · rw [hg, hb]
        rw [hg] at *
        simpa [List.filterMap_cons, hb] using qlookup_filterMap_of_none hb
      · simpa [List.filterMap_cons, hb] using ih ((List.mem_cons.mp h).resolve_left hg)
    | some c =>
      by_cases hg : g2 = b
      · rw [hg, hb]
        simp [List.filterMap_cons, hb, qlookup]
      · simpa [List.filterMap_cons, hb, qlookup, if_neg hg]
          using ih ((List.mem_cons.mp h).resolve_left hg)

/-- C7: each cell of a sweep is exactly the single-cell outcome
`cellResult` — independent of every other cell of the sweep (the grid is a
total function, so no exception propagates out of it) — and a cell whose
engine call fails by raising a validation error or by returning anything
but a success dictionary stores the `None` failure sentinel. -/
theorem sensitivity_cell_isolation (data : StockData) (n : ℤ) (dr tgr : ℚ)
    (r1 r2 : List ℚ) (g1 g2 : ℚ) (h1 : g1 ∈ r1) (h2 : g2 ∈ r2) :
    cellLookup (sensitivity_analysis data n dr r1 r2 tgr) g1 g2
      = cellResult data n dr tgr g1 g2 ∧
    (¬(g1 < g2) → isFailure (discounted_cash_flow data n dr g1 g2 tgr) = true →
      cellLookup (sensitivity_analysis data n dr r1 r2 tgr) g1 g2
        = some SCell.failed) := by
  have hmain : cellLookup (sensitivity_analysis data n dr r1 r2 tgr) g1 g2
      = cellResult data n dr tgr g1 g2 := by
    unfold cellLookup sensitivity_analysis
    rw [qlookup_map_self
      (fun g1_5 => r2.filterMap fun g6_20 =>
        (cellResult data n dr tgr g1_5 g6_20).map fun c => (g6_20, c)) h1]
    exact qlookup_filterMap_cell h2
  refine ⟨hmain, fun hnot hfail => ?_⟩
  rw [hmain]
  unfold cellResult
  rw [if_neg hnot]
  cases hout : discounted_cash_flow data n dr g1 g2 tgr with
  | raised e => rfl
  | returned d =>
    cases d with
    | errorDict msg => rfl
    | success r =>
      rw [hout] at hfail
      exact Bool.noConfusion hfail

/-- Witness for C7: a sweep over the single pair `(1, 0)` with a missing
market capitalization — the engine call fails with a returned error
dictionary and the stored cell is the failure sentinel. -/
theorem sensitivity_cell_isolation_witness :
    cellLookup (sensitivity_analysis dataNoMC 6 (9/100) [1] [0] (3/100)) 1 0
      = some SCell.failed :=
  (sensitivity_cell_isolation dataNoMC 6 (9/100) (3/100) [1] [0] 1 0
    (by norm_num) (by norm_num)).2 (by norm_num) (by
      rw [dcf_validation_pass dataNoMC 6 (by norm_num) (by norm_num) (by norm_num)
        (by norm_num) (by norm_num) (by norm_num) (by norm_num) (by norm_num) (by norm_num)]
      rfl)

/-! ## Claim C4: division by zero in the ratio diagnostics -/

/-- When every denominator on the success path is nonzero, the
calculation section succeeds and the price-to-FCF entry is
`market_cap / free_cash_flow`. -/
theorem computePart_ok_of (fcf mc cp nd sh : ℚ) (n : ℤ) (dr g1 g2 tgr : ℚ)
    (hdr : 0 ≤ dr) (hn : 1 ≤ n) (hdt : dr - tgr ≠ 0) (hsh : sh ≠ 0) (hcp : cp ≠ 0)
    (hfcf : fcf ≠ 0)
    (htv : fcf * (1 + growthFor g1 g2 n.toNat) ^ n.toNat * (1 + tgr) / (dr - tgr) ≠ 0)
    (hden : 1 + fcf /
        (fcf * (1 + growthFor g1 g2 n.toNat) ^ n.toNat * (1 + tgr) / (dr - tgr)) ≠ 0) :
    ∃ r, computePart fcf mc cp nd sh n dr g1 g2 tgr = .ok (.success r) ∧
      r.priceToFCF = mc / fcf := by
  have h1dr : (0 : ℚ) < 1 + dr := by linarith
  have hpow : ∀ y : ℕ, ((1 : ℚ) + dr) ^ y ≠ 0 := fun y => pow_ne_zero y (ne_of_gt h1dr)
  have hzpow : ((1 : ℚ) + dr) ^ n ≠ 0 := zpow_ne_zero n (ne_of_gt h1dr)
  have hpv : pvList fcf g1 g2 dr (projectionYears n)
      = .ok ((projectionYears n).map
          fun y => fcf * (1 + growthFor g1 g2 y) ^ y / (1 + dr) ^ y) :=
    pvList_ok (fun y _ => hpow y)
  have hlast : ((projectionYears n).map
        fun y => fcf * (1 + growthFor g1 g2 y) ^ y).getLast?
      = some (fcf * (1 + growthFor g1 g2 n.toNat) ^ n.toNat) := by
    rw [List.getLast?_map, projectionYears_getLast hn]
    rfl
  simp only [computePart, hpv, pylast_ok hlast, pydiv_ok hdt, pydiv_ok hzpow,
    pydiv_ok hsh, pydiv_ok hcp, pydiv_ok htv, pydiv_ok hden, pydiv_ok hfcf]
  exact ⟨_, rfl, rfl⟩

/-- With a zero base free cash flow the terminal value is zero and the
division `free_cash_flow / terminal_value` at line 137 raises
`ZeroDivisionError` before the price-to-FCF entry is evaluated. -/
theorem computePart_zero_fcf (mc cp nd sh : ℚ) (n : ℤ) (dr g1 g2 tgr : ℚ)
    (hdr : 0 ≤ dr) (hn : 1 ≤ n) (hdt : dr - tgr ≠ 0) (hsh : sh ≠ 0) (hcp : cp ≠ 0) :
    computePart 0 mc cp nd sh n dr g1 g2 tgr = .error .zeroDivisionError := by
  have h1dr : (0 : ℚ) < 1 + dr := by linarith
  have hpow : ∀ y : ℕ, ((1 : ℚ) + dr) ^ y ≠ 0 := fun y => pow_ne_zero y (ne_of_gt h1dr)
  have hzpow : ((1 : ℚ) + dr) ^ n ≠ 0 := zpow_ne_zero n (ne_of_gt h1dr)
  have hpv : pvList 0 g1 g2 dr (projectionYears n)
      = .ok ((projectionYears n).map
          fun y => 0 * (1 + growthFor g1 g2 y) ^ y / (1 + dr) ^ y) :=
    pvList_ok (fun y _ => hpow y)
  have hlast : ((projectionYears n).map
        fun y => (0 : ℚ) * (1 + growthFor g1 g2 y) ^ y).getLast?
      = some (0 * (1 + growthFor g1 g2 n.toNat) ^ n.toNat) := by
    rw [List.getLast?_map, projectionYears_getLast hn]
    rfl
  have htvzero : (0 : ℚ) * (1 + growthFor g1 g2 n.toNat) ^ n.toNat * (1 + tgr)
      / (dr - tgr) = 0 := by
    simp
  have hz : pydiv 0 ((0 : ℚ) * (1 + growthFor g1 g2 n.toNat) ^ n.toNat * (1 + tgr)
      / (dr - tgr)) = .error .zeroDivisionError := by
    rw [htvzero]
    simp [pydiv]
  simp only [computePart, hpv, pylast_ok hlast, pydiv_ok hdt, pydiv_ok hzpow,
    pydiv_ok hsh, pydiv_ok hcp, hz]

/-- A successful run of the whole engine on complete data, delivering the
price-to-FCF ratio `market_cap / free_cash_flow`. -/
theorem dcf_success_with_data (fcf mc cp tl cash sh : ℚ) (n : ℤ) (dr g1 g2 tgr : ℚ)
    (h1 : 0 ≤ dr) (h2 : dr ≤ 1) (h3 : -1 ≤ g1) (h4 : g1 ≤ 2)
    (h5 : -1 ≤ g2) (h6 : g2 ≤ 2) (h7 : -1 ≤ tgr) (h8 : tgr ≤ 1) (h9 : tgr < dr)
    (hn : 1 ≤ n) (hsh : sh ≠ 0) (hcp : cp ≠ 0) (hfcf : fcf ≠ 0)
    (htv : fcf * (1 + growthFor g1 g2 n.toNat) ^ n.toNat * (1 + tgr) / (dr - tgr) ≠ 0)
    (hden : 1 + fcf /
        (fcf * (1 + growthFor g1 g2 n.toNat) ^ n.toNat * (1 + tgr) / (dr - tgr)) ≠ 0) :
    ∃ r, discounted_cash_flow
        (mkData (some fcf) (some mc) (some cp) (some tl) (some cash) (some sh))
        n dr g1 g2 tgr
      = .returned (.success r) ∧ r.priceToFCF = mc / fcf := by
  obtain ⟨r, hr, hp⟩ := computePart_ok_of fcf mc cp (tl - cash) sh n dr g1 g2 tgr
    h1 hn (sub_ne_zero.mpr (ne_of_gt h9)) hsh hcp hfcf htv hden
  refine ⟨r, ?_, hp⟩
  rw [dcf_validation_pass _ _ h1 h2 h3 h4 h5 h6 h7 h8 h9]
  have htry_eq : dcfTry
      (mkData (some fcf) (some mc) (some cp) (some tl) (some cash) (some sh))
      n dr g1 g2 tgr = computePart fcf mc cp (tl - cash) sh n dr g1 g2 tgr := rfl
  unfold dcfBody
  rw [htry_eq, hr]

/-- C4 counterexample: with free cash flow exactly zero (all other
preconditions satisfied), the engine does not surface a distinct
numeric-degenerate error: the division raises and the blanket handler of
line 158 converts it into the same generic unexpected-error dictionary
used for every other computation fault. -/
theorem dcf_zero_fcf_generic_error :
    discounted_cash_flow (mkData (some 0) (some 10) (some 5) (some 3) (some 1) (some 2))
        1 (1/10) (1/10) (1/20) 0
      = .returned (.errorDict "An unexpected error occurred: division by zero") := by
  norm_num [discounted_cash_flow, dcfBody, dcfTry, computePart, pvList, pydiv, pylast,
    growthFor, projectionYears, mkData, List.range', pyExcMsg]
  rfl

/-- C4 amended: a zero free cash flow makes the engine return the generic
unexpected-error dictionary (the zero division at the implied-growth step
is caught by the blanket handler, so no distinct numeric-degenerate error
exists), while a strictly negative free cash flow is a valid input whose
successful result carries `price_to_fcf = market_cap / free_cash_flow`. -/
theorem dcf_price_to_fcf_policy (fcf mc cp tl cash sh : ℚ) (n : ℤ) (dr g1 g2 tgr : ℚ)
    (h1 : 0 ≤ dr) (h2 : dr ≤ 1) (h3 : -1 < g1) (h4 : g1 ≤ 2)
    (h5 : -1 < g2) (h6 : g2 ≤ 2) (h7 : -1 < tgr) (h8 : tgr ≤ 1) (h9 : tgr < dr)
    (hn : 1 ≤ n) (hsh : sh ≠ 0) (hcp : cp ≠ 0) :
    (fcf = 0 →
      discounted_cash_flow
          (mkData (some fcf) (some mc) (some cp) (some tl) (some cash) (some sh))
          n dr g1 g2 tgr
        = .returned (.errorDict "An unexpected error occurred: division by zero")) ∧
    (fcf < 0 →
      ∃ r, discounted_cash_flow
          (mkData (some fcf) (some mc) (some cp) (some tl) (some cash) (some sh))
          n dr g1 g2 tgr
        = .returned (.success r) ∧ r.priceToFCF = mc / fcf) := by
  constructor
  · intro hz
    subst hz
    rw [dcf_validation_pass _ _ h1 h2 (le_of_lt h3) h4 (le_of_lt h5) h6
      (le_of_lt h7) h8 h9]
    have htry_eq : dcfTry
        (mkData (some 0) (some mc) (some cp) (some tl) (some cash) (some sh))
        n dr g1 g2 tgr = computePart 0 mc cp (tl - cash) sh n dr g1 g2 tgr := rfl
    unfold dcfBody
    rw [htry_eq, computePart_zero_fcf mc cp (tl - cash) sh n dr g1 g2 tgr h1 hn
      (sub_ne_zero.mpr (ne_of_gt h9)) hsh hcp]
    rfl
  · intro hneg
    have hfcfne : fcf ≠ 0 := ne_of_lt hneg
    have hg : (0 : ℚ) < 1 + growthFor g1 g2 n.toNat := by
      unfold growthFor
      split <;> linarith
    have hpowpos : (0 : ℚ) < (1 + growthFor g1 g2 n.toNat) ^ n.toNat := pow_pos hg _
    have htgr : (0 : ℚ) < 1 + tgr := by linarith
    have hdt : (0 : ℚ) < dr - tgr := by linarith
    have htv : fcf * (1 + growthFor g1 g2 n.toNat) ^ n.toNat * (1 + tgr)
        / (dr - tgr) ≠ 0 :=
      div_ne_zero
        (mul_ne_zero (mul_ne_zero hfcfne (ne_of_gt hpowpos)) (ne_of_gt htgr))
        (ne_of_gt hdt)
    have hquot : fcf /
        (fcf * (1 + growthFor g1 g2 n.toNat) ^ n.toNat * (1 + tgr) / (dr - tgr))
        = (dr - tgr) / ((1 + growthFor g1 g2 n.toNat) ^ n.toNat * (1 + tgr)) := by
      rw [div_div_eq_mul_div, mul_assoc, mul_div_mul_left _ _ hfcfne]
    have hquotpos : (0 : ℚ) <
        (dr - tgr) / ((1 + growthFor g1 g2 n.toNat) ^ n.toNat * (1 + tgr)) :=
      div_pos hdt (mul_pos hpowpos htgr)
    have hden : 1 + fcf /
        (fcf * (1 + growthFor g1 g2 n.toNat) ^ n.toNat * (1 + tgr) / (dr - tgr)) ≠ 0 := by
      rw [hquot]
      linarith
    exact dcf_success_with_data fcf mc cp tl cash sh n dr g1 g2 tgr
      h1 h2 (le_of_lt h3) h4 (le_of_lt h5) h6 (le_of_lt h7) h8 h9 hn hsh hcp
      hfcfne htv hden

/-- Witness for the amended C4: a zero base FCF yields the generic error;
a base FCF of minus two yields a success with a negative price-to-FCF. -/
theorem dcf_price_to_fcf_policy_witness :
    discounted_cash_flow (mkData (some 0) (some 7) (some 3) (some 4) (some 2) (some 5))
        2 (1/5) (1/4) (1/8) (1/10)
      = .returned (.errorDict "An unexpected error occurred: division by zero") ∧
    ∃ r, discounted_cash_flow
        (mkData (some (-2)) (some 7) (some 3) (some 4) (some 2) (some 5))
        2 (1/5) (1/4) (1/8) (1/10)
      = .returned (.success r) ∧ r.priceToFCF = 7 / (-2) :=
  ⟨(dcf_price_to_fcf_policy 0 7 3 4 2 5 2 (1/5) (1/4) (1/8) (1/10)
      (by norm_num) (by norm_num) (by norm_num) (by norm_num) (by norm_num)
      (by norm_num) (by norm_num) (by norm_num) (by norm_num) (by norm_num)
      (by norm_num) (by norm_num)).1 rfl,
   (dcf_price_to_fcf_policy (-2) 7 3 4 2 5 2 (1/5) (1/4) (1/8) (1/10)
      (by norm_num) (by norm_num) (by norm_num) (by norm_num) (by norm_num)
      (by norm_num) (by norm_num) (by norm_num) (by norm_num) (by norm_num)
      (by norm_num) (by norm_num)).2 (by norm_num)⟩
